import Mathlib

/-!
Shallow embedding of `src/main.js` (ksense health-assessment script).

The script fetches paginated patient records, scores each patient's risk
from blood pressure, temperature and age, builds three alert lists, and
submits them.  JavaScript numbers are modelled as rationals (`ℚ`); absent
or non-numeric fields are modelled as `none` (the code collapses both via
`== null || isNaN(...)`).  The empty string temperature, which JavaScript
coerces to the number 0, is modelled as `some 0`; the JS truthiness test
`p.temperature && ...` is modelled by an explicit `≠ 0` test on the value.
-/

/-- A patient record as returned by the API (`src/main.js` data model).
`blood_pressure` is a raw string (possibly absent), `temperature` and
`age` are numbers (absent / non-numeric modelled as `none`). -/
structure Patient where
  patient_id : String
  blood_pressure : Option String
  temperature : Option ℚ
  age : Option ℚ
deriving Repr, DecidableEq

/-- Decimal value of a list of digit characters, as `parseInt` computes it
on a capture of `\d+` (which is always a non-empty run of digits).
Returns `none` on the empty list, mirroring `parseInt("")` being `NaN`
(the `isNaN` guard in `parseBP`, line 93 of `src/main.js`). -/
def parseIntDigits (cs : List Char) : Option ℕ :=
  if cs.isEmpty then none
  else some (cs.foldl (fun n c => 10 * n + (c.toNat - 48)) 0)

/-- First match of the regex `(\d+)\/(\d+)` (line 88 of `src/main.js`):
scan left to right; at each position take the maximal digit run, require
a `/` and at least one digit after it; on failure advance one character.
Returns the two captured digit runs. -/
def findBPMatch : List Char → Option (List Char × List Char)
  | [] => none
  | c :: rest =>
    if c.isDigit then
      let run1 := (c :: rest).takeWhile Char.isDigit
      let after1 := (c :: rest).dropWhile Char.isDigit
      match after1 with
      | '/' :: r2 =>
        let run2 := r2.takeWhile Char.isDigit
        if run2.isEmpty then findBPMatch rest else some (run1, run2)
      | _ => findBPMatch rest
    else findBPMatch rest

/-- `parseBP` (lines 86–102 of `src/main.js`): blood-pressure string to
risk sub-score.  `!bp` is true for an absent field or the empty string. -/
def parseBP (bp : Option String) : ℕ :=
  match bp with
  | none => 0
  | some s =>
    if s = "" then 0
    else
      match findBPMatch s.data with
      | none => 0
      | some (m1, m2) =>
        match parseIntDigits m1, parseIntDigits m2 with
        | some systolic, some diastolic =>
          if systolic < 120 ∧ diastolic < 80 then 1
          else if 120 ≤ systolic ∧ systolic ≤ 129 ∧ diastolic < 80 then 2
          else if (130 ≤ systolic ∧ systolic ≤ 139) ∨ (80 ≤ diastolic ∧ diastolic ≤ 89) then 3
          else if 140 ≤ systolic ∨ 90 ≤ diastolic then 4
          else 0
        | _, _ => 0

/-- `parseTemp` (lines 105–110 of `src/main.js`): temperature to risk
sub-score; absent or non-numeric is `none` and scores 0. -/
def parseTemp (temp : Option ℚ) : ℕ :=
  match temp with
  | none => 0
  | some t =>
    if t ≤ 99.5 then 0
    else if t ≤ 100.9 then 1
    else 2

/-- `parseAge` (lines 113–118 of `src/main.js`): age to risk sub-score;
absent or non-numeric is `none` and scores 0. -/
def parseAge (age : Option ℚ) : ℕ :=
  match age with
  | none => 0
  | some a =>
    if a < 40 then 1
    else if a ≤ 65 then 1
    else 2

/-- The derived risk record of `calculateRisk`. -/
structure RiskScore where
  total : ℕ
  bpScore : ℕ
  tempScore : ℕ
  ageScore : ℕ
  dataIssue : Bool
deriving Repr, DecidableEq

/-- `calculateRisk` (lines 123–139 of `src/main.js`); a `none` patient is
the JS falsy (`null`/`undefined`) case.  `dataIssue` is literally
`[bpScore, tempScore, ageScore].includes(0)`. -/
def calculateRisk (patient : Option Patient) : RiskScore :=
  match patient with
  | none => { total := 0, bpScore := 0, tempScore := 0, ageScore := 0, dataIssue := true }
  | some p =>
    let bpScore := parseBP p.blood_pressure
    let tempScore := parseTemp p.temperature
    let ageScore := parseAge p.age
    let total := bpScore + tempScore + ageScore
    let dataIssue := ([bpScore, tempScore, ageScore] : List ℕ).contains 0
    { total := total, bpScore := bpScore, tempScore := tempScore,
      ageScore := ageScore, dataIssue := dataIssue }

/-- The three alert lists built by `buildAlertLists`. -/
@[ext]
structure AlertLists where
  high_risk_patients : List String
  fever_patients : List String
  data_quality_issues : List String
deriving Repr, DecidableEq

/-- The fever test of line 155 of `src/main.js`:
`p.temperature && p.temperature >= 99.6`.  JS truthiness of a number is
`≠ 0` (and an absent field is falsy). -/
def feverCheck (p : Patient) : Bool :=
  match p.temperature with
  | none => false
  | some t => (t ≠ 0 : Bool) && (99.6 ≤ t : Bool)

/-- Body of the `forEach` callback in `buildAlertLists` (lines 149–157):
skip falsy entries, then push the id onto each list whose criterion
holds. -/
def processPatient (acc : AlertLists) (op : Option Patient) : AlertLists :=
  match op with
  | none => acc
  | some p =>
    let r := calculateRisk (some p)
    let acc1 := if 4 ≤ r.total then
      { acc with high_risk_patients := acc.high_risk_patients ++ [p.patient_id] } else acc
    let acc2 := if feverCheck p then
      { acc1 with fever_patients := acc1.fever_patients ++ [p.patient_id] } else acc1
    let acc3 := if r.dataIssue then
      { acc2 with data_quality_issues := acc2.data_quality_issues ++ [p.patient_id] } else acc2
    acc3

/-- `buildAlertLists` (lines 144–160 of `src/main.js`): one `forEach`
pass accumulating the three lists. -/
def buildAlertLists (patients : List (Option Patient)) : AlertLists :=
  patients.foldl processPatient { high_risk_patients := [], fever_patients := [], data_quality_issues := [] }

/-!
## Fetcher model (`fetchPatients`, lines 18–79 of `src/main.js`)

The network is modelled as a list of `Response`s consumed in request
order; an exhausted list behaves like a network error on every further
request (the `fetch` call throws).  The value-level behaviour (which
patients are returned) and the observable retry trace (which waits are
slept) are computed; console output is ignored.
-/

/-- A parsed successful response body: `{ data, pagination: { totalPages } }`. -/
structure PageBody where
  data : List (Option Patient)
  totalPages : ℕ
deriving Repr, DecidableEq

/-- One HTTP exchange: a status with an optional parsed JSON body
(`none` means `res.json()` throws), or a network error thrown by
`fetch` itself. -/
inductive Response where
  | http (status : ℕ) (body : Option PageBody)
  | netErr
deriving Repr, DecidableEq

/-- Outcome of the per-page retry loop (lines 27–70): either a parsed
body, or the loop exits with `success` still false after the attempt
limit.  Every throw inside the loop body is caught by the `catch` at
line 63, so the loop cannot propagate an error. -/
inductive PageOutcome where
  | success (body : PageBody)
  | gaveUp
deriving Repr, DecidableEq

/-- The inner `while (!success && attempts < 10)` loop for one page.
`fuel = 10 - attempts` counts the remaining allowed attempts; each
failure increments `attempts` and waits `3000 * attempts` ms.  Returns
the outcome, the unconsumed responses (so consumed length = number of
requests made), and the list of waits in order.  Branches mirror the
source: 429, then 500/502/503, then `if (!res.ok) throw` (caught by the
same function's `catch`), then `res.json()` success or parse throw. -/
def fetchPageAux : ℕ → ℕ → List Response → PageOutcome × List Response × List ℕ
  | 0, _, rs => (PageOutcome.gaveUp, rs, [])
  | fuel + 1, attempts, rs =>
    match rs with
    | [] =>
      let out := fetchPageAux fuel (attempts + 1) []
      (out.1, out.2.1, 3000 * (attempts + 1) :: out.2.2)
    | Response.netErr :: rest =>
      let out := fetchPageAux fuel (attempts + 1) rest
      (out.1, out.2.1, 3000 * (attempts + 1) :: out.2.2)
    | Response.http status body :: rest =>
      if status = 429 then
        let out := fetchPageAux fuel (attempts + 1) rest
        (out.1, out.2.1, 3000 * (attempts + 1) :: out.2.2)
      else if status = 500 ∨ status = 502 ∨ status = 503 then
        let out := fetchPageAux fuel (attempts + 1) rest
        (out.1, out.2.1, 3000 * (attempts + 1) :: out.2.2)
      else if ¬ (200 ≤ status ∧ status ≤ 299) then
        let out := fetchPageAux fuel (attempts + 1) rest
        (out.1, out.2.1, 3000 * (attempts + 1) :: out.2.2)
      else
        match body with
        | some b => (PageOutcome.success b, rest, [])
        | none =>
          let out := fetchPageAux fuel (attempts + 1) rest
          (out.1, out.2.1, 3000 * (attempts + 1) :: out.2.2)

/-- The per-page loop as entered by the source: `attempts = 0`, so up to
10 attempts. -/
def fetchPage (rs : List Response) : PageOutcome × List Response × List ℕ :=
  fetchPageAux 10 0 rs

/-- The outer `while (page <= totalPages)` loop of `fetchPatients`.
`fuel` is an upper bound on the number of outer iterations (the loop
need not terminate for adversarial oracles that keep raising
`totalPages`, so the model takes explicit fuel; every theorem supplies
enough).  On success the patients are appended and `totalPages` is
re-read from the body; on give-up the page is skipped silently. -/
def fetchPagesAux : ℕ → List Response → List (Option Patient) → ℕ → ℕ → List (Option Patient)
  | 0, _, patients, _, _ => patients
  | fuel + 1, rs, patients, page, totalPages =>
    if page ≤ totalPages then
      match fetchPage rs with
      | (PageOutcome.success b, rest, _) =>
        fetchPagesAux fuel rest (patients ++ b.data) (page + 1) b.totalPages
      | (PageOutcome.gaveUp, rest, _) =>
        fetchPagesAux fuel rest patients (page + 1) totalPages
    else patients

/-- `fetchPatients` (lines 18–79): start with no patients at
`page = 1`, `totalPages = 1`. -/
def fetchPatients (fuel : ℕ) (rs : List Response) : List (Option Patient) :=
  fetchPagesAux fuel rs [] 1 1

/-- A response on which the per-page loop succeeds: 2xx status with a
parseable body. -/
def isSuccess : Response → Bool
  | Response.http status (some _) => decide (200 ≤ status) && decide (status ≤ 299)
  | Response.http _ none => false
  | Response.netErr => false

/-- The failures the spec calls retryable: HTTP 429, 500, 502, 503, a
network error, or a parse failure of a 2xx body. -/
def isRetryable : Response → Bool
  | Response.netErr => true
  | Response.http status body =>
    (status == 429) || (status == 500) || (status == 502) || (status == 503)
      || (decide (200 ≤ status) && decide (status ≤ 299) && body.isNone)

/-- The backoff waits produced by `n` consecutive failures entered with
the given prior attempt count: `3000 * (attempts+1), 3000 * (attempts+2), ...` -/
def backoffWaits : ℕ → ℕ → List ℕ
  | _, 0 => []
  | attempts, n + 1 => 3000 * (attempts + 1) :: backoffWaits (attempts + 1) n

/-!
## Spec-side definitions and concrete example patients
-/

/-- The blood-pressure band table exactly as the spec words it
(four bands, evaluated in order, first match wins), as a function of the
parsed pair.  Stated separately from `parseBP` so that the claim
"score = first matching band of the parsed pair" is a genuine
comparison. -/
def bpBandSpec (systolic diastolic : ℕ) : ℕ :=
  if systolic < 120 ∧ diastolic < 80 then 1
  else if 120 ≤ systolic ∧ systolic ≤ 129 ∧ diastolic < 80 then 2
  else if (130 ≤ systolic ∧ systolic ≤ 139) ∨ (80 ≤ diastolic ∧ diastolic ≤ 89) then 3
  else if 140 ≤ systolic ∨ 90 ≤ diastolic then 4
  else 0

/-- The high-risk criterion of line 154: combined total at least 4. -/
def highRiskCheck (p : Patient) : Bool :=
  decide (4 ≤ (calculateRisk (some p)).total)

/-- The data-quality criterion of line 156: the computed `dataIssue`. -/
def dataIssueCheck (p : Patient) : Bool :=
  (calculateRisk (some p)).dataIssue

/-- Spec §8 end-to-end example: BP "145/95", temperature 101.2, age 70. -/
def exPatientHF : Patient :=
  { patient_id := "HF-1", blood_pressure := some "145/95", temperature := some 101.2, age := some 70 }

/-- A patient qualifying for no list: all sub-scores positive, total 3,
temperature strictly between 99.5 and 99.6. -/
def exPatientZero : Patient :=
  { patient_id := "Z-1", blood_pressure := some "118/76", temperature := some 99.55, age := some 30 }

/-- Spec §8 example: BP missing, temperature 98.0, age 30 — data-quality
issue only. -/
def exPatientData : Patient :=
  { patient_id := "D-1", blood_pressure := none, temperature := some 98.0, age := some 30 }

/-- A patient qualifying for all three lists: high total, fever, and a
missing age. -/
def exPatientAll : Patient :=
  { patient_id := "A-1", blood_pressure := some "145/95", temperature := some 101.2, age := none }


/-!
## Lemmas about the scorer
-/

lemma findBPMatch_nil : findBPMatch [] = none := rfl

/-- `parseBP` on a string with a regex match reduces to the band table
applied to the parsed pair. -/
lemma parseBP_match_eq (s : String) (m1 m2 : List Char) (sy di : ℕ)
    (hm : findBPMatch s.data = some (m1, m2))
    (h1 : parseIntDigits m1 = some sy) (h2 : parseIntDigits m2 = some di) :
    parseBP (some s) = bpBandSpec sy di := by
  have hne : s ≠ "" := by
    intro h
    rw [h] at hm
    simp [findBPMatch_nil] at hm
  simp only [parseBP, if_neg hne, hm, h1, h2, bpBandSpec]

/-- The four blood-pressure bands cover every pair of naturals. -/
lemma bpBandSpec_pos (sy di : ℕ) : bpBandSpec sy di ≠ 0 ∧ bpBandSpec sy di ∈ ([1, 2, 3, 4] : List ℕ) := by
  unfold bpBandSpec
  split_ifs <;> simp_all
  omega

/-- C7 general part, as a reusable lemma. -/
lemma parseTemp_band (t : ℚ) :
    (t ≤ 99.5 → parseTemp (some t) = 0) ∧
    (99.5 < t → t ≤ 100.9 → parseTemp (some t) = 1) ∧
    (100.9 < t → parseTemp (some t) = 2) := by
  refine ⟨?_, ?_, ?_⟩ <;> intro h <;> simp [parseTemp] <;> intros <;>
    first | rfl | linarith | (split_ifs <;> first | rfl | linarith)

/-- C8 general part, as a reusable lemma. -/
lemma parseAge_band (a : ℚ) :
    (a < 40 → parseAge (some a) = 1) ∧
    (40 ≤ a → a ≤ 65 → parseAge (some a) = 1) ∧
    (65 < a → parseAge (some a) = 2) := by
  refine ⟨?_, ?_, ?_⟩ <;> intro h <;> simp [parseAge] <;> intros <;>
    first | rfl | linarith | (split_ifs <;> first | rfl | linarith)

/-- C1: For every HTTP response status that is not 2xx, 429, 500, 502,
or 503 (e.g. 404 or 401), the fetch operation raises an error
immediately, the error propagates to the caller, and the entire fetch
is aborted rather than retried or skipped.  REFUTED on the code: the
`throw new Error` of line 52 sits inside the `try` of line 28, so the
`catch` of line 63 swallows it and retries the page.  This theorem
evaluates the model at the failing inputs: a 404 followed by a 200 is
retried (after a 3000 ms backoff wait) and the fetch then succeeds; ten
consecutive 404s make the page loop give up silently and the run
completes normally with an empty patient list instead of aborting. -/
theorem nonretryable_status_caught_and_retried :
    fetchPage [Response.http 404 none, Response.http 200 (some { data := [], totalPages := 1 })] =
      (PageOutcome.success { data := [], totalPages := 1 }, [], [3000]) ∧
    (fetchPage (List.replicate 10 (Response.http 404 none))).1 = PageOutcome.gaveUp ∧
    fetchPatients 1 (List.replicate 10 (Response.http 404 none)) = [] := by
  refine ⟨by decide, by decide, by decide⟩

/-- `dataIssue` is exactly "some sub-score is 0". -/
lemma calculateRisk_dataIssue_iff (p : Patient) :
    (calculateRisk (some p)).dataIssue = true ↔
      parseBP p.blood_pressure = 0 ∨ parseTemp p.temperature = 0 ∨ parseAge p.age = 0 := by
  simp [calculateRisk, List.contains]
  tauto

/-- C2: For every string containing a first match of `digits/digits`
parsed as (systolic, diastolic), the blood-pressure score is the first
matching band in the stated order (1, 2, 3, 4); 118/76 → 1, 125/78 → 2,
135/85 → 3, 145/95 → 4, 121/80 → 3; an empty, absent, or non-matching
field scores 0. -/
theorem parseBP_first_matching_band :
    (∀ (s : String) (m1 m2 : List Char) (sy di : ℕ),
      findBPMatch s.data = some (m1, m2) →
      parseIntDigits m1 = some sy → parseIntDigits m2 = some di →
      parseBP (some s) = bpBandSpec sy di) ∧
    parseBP (some "118/76") = 1 ∧ parseBP (some "125/78") = 2 ∧
    parseBP (some "135/85") = 3 ∧ parseBP (some "145/95") = 4 ∧
    parseBP (some "121/80") = 3 ∧
    parseBP none = 0 ∧ parseBP (some "") = 0 ∧ parseBP (some "no reading") = 0 := by
  refine ⟨parseBP_match_eq, by decide, by decide, by decide, by decide, by decide,
    rfl, by decide, by decide⟩

/-- Witness for C2: the general band statement applied to the concrete
string "121/80", whose match parses as (121, 80); band 3 fires on the
diastolic clause. -/
theorem parseBP_first_matching_band_witness :
    parseBP (some "121/80") = bpBandSpec 121 80 ∧ bpBandSpec 121 80 = 3 :=
  ⟨parseBP_first_matching_band.1 "121/80" ['1', '2', '1'] ['8', '0'] 121 80
    (by decide) (by decide) (by decide), by decide⟩

/-- C10: For every blood-pressure string in which `digits/digits`
matches (so both components parse as non-negative integers), the four
bands are exhaustive: the score is in {1, 2, 3, 4}, the fall-through
`return 0` of line 101 is unreachable, and a well-formed reading never
sets `dataIssue` by itself (if `dataIssue` holds, one of the other two
sub-scores is 0). -/
theorem parseBP_bands_exhaustive :
    ∀ (s : String) (m1 m2 : List Char) (sy di : ℕ),
      findBPMatch s.data = some (m1, m2) →
      parseIntDigits m1 = some sy → parseIntDigits m2 = some di →
      parseBP (some s) ≠ 0 ∧ parseBP (some s) ∈ ([1, 2, 3, 4] : List ℕ) ∧
      (∀ p : Patient, p.blood_pressure = some s →
        (calculateRisk (some p)).dataIssue = true →
        parseTemp p.temperature = 0 ∨ parseAge p.age = 0) := by
  intro s m1 m2 sy di hm h1 h2
  have heq := parseBP_match_eq s m1 m2 sy di hm h1 h2
  have hpos := bpBandSpec_pos sy di
  refine ⟨heq ▸ hpos.1, heq ▸ hpos.2, ?_⟩
  intro p hbp hdi
  rw [calculateRisk_dataIssue_iff, hbp, heq] at hdi
  rcases hdi with h | h | h
  · exact absurd h hpos.1
  · exact Or.inl h
  · exact Or.inr h

/-- Witness for C10: the exhaustiveness statement applied to the
concrete reading "145/95". -/
theorem parseBP_bands_exhaustive_witness :
    parseBP (some "145/95") ≠ 0 ∧ parseBP (some "145/95") ∈ ([1, 2, 3, 4] : List ℕ) ∧
    (∀ p : Patient, p.blood_pressure = some "145/95" →
      (calculateRisk (some p)).dataIssue = true →
      parseTemp p.temperature = 0 ∨ parseAge p.age = 0) :=
  parseBP_bands_exhaustive "145/95" ['1', '4', '5'] ['9', '5'] 145 95
    (by decide) (by decide) (by decide)

/-- C7: For every numeric temperature, the sub-score is 0 when ≤ 99.5,
1 when 99.5 < value ≤ 100.9, 2 when > 100.9; absent or non-numeric
scores 0; 99.5 → 0, 99.6 → 1, 100.9 → 1, 101.0 → 2. -/
theorem parseTemp_bands :
    (∀ t : ℚ,
      (t ≤ 99.5 → parseTemp (some t) = 0) ∧
      (99.5 < t → t ≤ 100.9 → parseTemp (some t) = 1) ∧
      (100.9 < t → parseTemp (some t) = 2)) ∧
    parseTemp none = 0 ∧
    parseTemp (some 99.5) = 0 ∧ parseTemp (some 99.6) = 1 ∧
    parseTemp (some 100.9) = 1 ∧ parseTemp (some 101.0) = 2 :=
  ⟨parseTemp_band, rfl, by norm_num [parseTemp], by norm_num [parseTemp],
    by norm_num [parseTemp], by norm_num [parseTemp]⟩

/-- Witness for C7: the band statement applied to the concrete
temperatures 98 (≤ 99.5), 100 (in the middle band) and 102 (> 100.9). -/
theorem parseTemp_bands_witness :
    parseTemp (some 98) = 0 ∧ parseTemp (some 100) = 1 ∧ parseTemp (some 102) = 2 :=
  ⟨(parseTemp_bands.1 98).1 (by norm_num),
   (parseTemp_bands.1 100).2.1 (by norm_num) (by norm_num),
   (parseTemp_bands.1 102).2.2 (by norm_num)⟩

/-- C8: For every numeric age, the sub-score is 1 when < 40, 1 when
40 ≤ age ≤ 65, 2 when > 65; absent or non-numeric scores 0; 39 → 1,
40 → 1, 65 → 1, 66 → 2. -/
theorem parseAge_bands :
    (∀ a : ℚ,
      (a < 40 → parseAge (some a) = 1) ∧
      (40 ≤ a → a ≤ 65 → parseAge (some a) = 1) ∧
      (65 < a → parseAge (some a) = 2)) ∧
    parseAge none = 0 ∧
    parseAge (some 39) = 1 ∧ parseAge (some 40) = 1 ∧
    parseAge (some 65) = 1 ∧ parseAge (some 66) = 2 :=
  ⟨parseAge_band, rfl, by decide, by decide, by decide, by decide⟩

/-- Witness for C8: the band statement applied to the concrete ages 39,
40 and 66. -/
theorem parseAge_bands_witness :
    parseAge (some 39) = 1 ∧ parseAge (some 40) = 1 ∧ parseAge (some 66) = 2 :=
  ⟨(parseAge_bands.1 39).1 (by decide),
   (parseAge_bands.1 40).2.1 (by decide) (by decide),
   (parseAge_bands.1 66).2.2 (by decide)⟩

/-- C3: For every patient record the combined result satisfies
`total = bpScore + tempScore + ageScore`, and `dataIssue = true` iff at
least one of the three sub-scores is 0; a null/absent record yields
0/0/0/0 with `dataIssue = true`. -/
theorem calculateRisk_total_and_dataIssue :
    (∀ op : Option Patient,
      (calculateRisk op).total =
        (calculateRisk op).bpScore + (calculateRisk op).tempScore + (calculateRisk op).ageScore ∧
      ((calculateRisk op).dataIssue = true ↔
        (calculateRisk op).bpScore = 0 ∨ (calculateRisk op).tempScore = 0 ∨
        (calculateRisk op).ageScore = 0)) ∧
    calculateRisk none =
      { total := 0, bpScore := 0, tempScore := 0, ageScore := 0, dataIssue := true } := by
  refine ⟨?_, rfl⟩
  intro op
  cases op with
  | none => exact ⟨rfl, by simp [calculateRisk]⟩
  | some p => exact ⟨rfl, calculateRisk_dataIssue_iff p⟩

/-!
## Lemmas about the classifier
-/

lemma processPatient_some_high (acc : AlertLists) (p : Patient) :
    (processPatient acc (some p)).high_risk_patients =
      acc.high_risk_patients ++ (if highRiskCheck p then [p.patient_id] else []) := by
  simp only [processPatient, highRiskCheck, decide_eq_true_eq]
  split_ifs <;> simp

lemma processPatient_some_fever (acc : AlertLists) (p : Patient) :
    (processPatient acc (some p)).fever_patients =
      acc.fever_patients ++ (if feverCheck p then [p.patient_id] else []) := by
  simp only [processPatient]
  split_ifs <;> simp_all

lemma processPatient_some_data (acc : AlertLists) (p : Patient) :
    (processPatient acc (some p)).data_quality_issues =
      acc.data_quality_issues ++ (if dataIssueCheck p then [p.patient_id] else []) := by
  simp only [processPatient, dataIssueCheck]
  split_ifs <;> simp_all

/-- The `forEach` fold, for an arbitrary starting accumulator: each list
grows by the ids of the qualifying non-null patients, in encounter
order. -/
lemma foldl_processPatient (ps : List (Option Patient)) (acc : AlertLists) :
    ps.foldl processPatient acc =
      { high_risk_patients := acc.high_risk_patients ++
          ((ps.reduceOption.filter highRiskCheck).map Patient.patient_id),
        fever_patients := acc.fever_patients ++
          ((ps.reduceOption.filter feverCheck).map Patient.patient_id),
        data_quality_issues := acc.data_quality_issues ++
          ((ps.reduceOption.filter dataIssueCheck).map Patient.patient_id) } := by
  induction ps generalizing acc with
  | nil => simp
  | cons op ps ih =>
    cases op with
    | none =>
      rw [List.foldl_cons]
      show ps.foldl processPatient acc = _
      rw [ih, List.reduceOption_cons_of_none]
    | some p =>
      rw [List.foldl_cons, ih]
      simp only [List.reduceOption_cons_of_some, List.filter_cons]
      refine AlertLists.ext ?_ ?_ ?_ <;>
        simp [processPatient_some_high, processPatient_some_fever, processPatient_some_data] <;>
        split_ifs <;> simp

/-- `buildAlertLists` in closed form: a filter of the non-null patients,
mapped to their ids, per criterion. -/
lemma buildAlertLists_char (ps : List (Option Patient)) :
    buildAlertLists ps =
      { high_risk_patients := (ps.reduceOption.filter highRiskCheck).map Patient.patient_id,
        fever_patients := (ps.reduceOption.filter feverCheck).map Patient.patient_id,
        data_quality_issues := (ps.reduceOption.filter dataIssueCheck).map Patient.patient_id } := by
  rw [buildAlertLists, foldl_processPatient]
  simp

/-- The JS truthy fever test agrees with "temperature present and at
least 99.6" (a temperature of 0 is falsy, but 0 < 99.6 anyway). -/
lemma feverCheck_iff (p : Patient) :
    feverCheck p = true ↔ ∃ t : ℚ, p.temperature = some t ∧ 99.6 ≤ t := by
  cases htemp : p.temperature with
  | none => simp [feverCheck, htemp]
  | some t =>
    simp only [feverCheck, htemp, Bool.and_eq_true, decide_eq_true_eq, Option.some.injEq]
    constructor
    · rintro ⟨-, h⟩
      exact ⟨t, rfl, h⟩
    · rintro ⟨u, rfl, h⟩
      refine ⟨?_, h⟩
      intro h0
      rw [h0] at h
      norm_num at h


/-!
## Concrete evaluations of the example patients
-/

lemma calculateRisk_exPatientHF :
    calculateRisk (some exPatientHF) =
      { total := 8, bpScore := 4, tempScore := 2, ageScore := 2, dataIssue := false } := by
  have hbp : parseBP (some "145/95") = 4 := by decide
  have ht : parseTemp (some (101.2 : ℚ)) = 2 := by norm_num [parseTemp]
  have ha : parseAge (some (70 : ℚ)) = 2 := by decide
  simp [calculateRisk, exPatientHF, hbp, ht, ha, List.contains]

lemma calculateRisk_exPatientZero :
    calculateRisk (some exPatientZero) =
      { total := 3, bpScore := 1, tempScore := 1, ageScore := 1, dataIssue := false } := by
  have hbp : parseBP (some "118/76") = 1 := by decide
  have ht : parseTemp (some (99.55 : ℚ)) = 1 := by norm_num [parseTemp]
  have ha : parseAge (some (30 : ℚ)) = 1 := by decide
  simp [calculateRisk, exPatientZero, hbp, ht, ha, List.contains]

lemma calculateRisk_exPatientData :
    calculateRisk (some exPatientData) =
      { total := 1, bpScore := 0, tempScore := 0, ageScore := 1, dataIssue := true } := by
  have ht : parseTemp (some (98.0 : ℚ)) = 0 := by norm_num [parseTemp]
  have ha : parseAge (some (30 : ℚ)) = 1 := by decide
  simp [calculateRisk, exPatientData, parseBP, ht, ha, List.contains]

lemma calculateRisk_exPatientAll :
    calculateRisk (some exPatientAll) =
      { total := 6, bpScore := 4, tempScore := 2, ageScore := 0, dataIssue := true } := by
  have hbp : parseBP (some "145/95") = 4 := by decide
  have ht : parseTemp (some (101.2 : ℚ)) = 2 := by norm_num [parseTemp]
  simp [calculateRisk, exPatientAll, hbp, ht, parseAge, List.contains]

lemma highRiskCheck_exPatientHF : highRiskCheck exPatientHF = true := by
  simp [highRiskCheck, calculateRisk_exPatientHF]

lemma highRiskCheck_exPatientZero : highRiskCheck exPatientZero = false := by
  simp [highRiskCheck, calculateRisk_exPatientZero]

lemma highRiskCheck_exPatientData : highRiskCheck exPatientData = false := by
  simp [highRiskCheck, calculateRisk_exPatientData]

lemma highRiskCheck_exPatientAll : highRiskCheck exPatientAll = true := by
  simp [highRiskCheck, calculateRisk_exPatientAll]

lemma dataIssueCheck_exPatientHF : dataIssueCheck exPatientHF = false := by
  simp [dataIssueCheck, calculateRisk_exPatientHF]

lemma dataIssueCheck_exPatientZero : dataIssueCheck exPatientZero = false := by
  simp [dataIssueCheck, calculateRisk_exPatientZero]

lemma dataIssueCheck_exPatientData : dataIssueCheck exPatientData = true := by
  simp [dataIssueCheck, calculateRisk_exPatientData]

lemma dataIssueCheck_exPatientAll : dataIssueCheck exPatientAll = true := by
  simp [dataIssueCheck, calculateRisk_exPatientAll]

lemma feverCheck_exPatientHF : feverCheck exPatientHF = true := by
  rw [feverCheck_iff]
  exact ⟨101.2, rfl, by norm_num⟩

lemma feverCheck_exPatientZero : feverCheck exPatientZero = false := by
  simp only [Bool.eq_false_iff]
  intro h
  obtain ⟨t, ht, hle⟩ := (feverCheck_iff _).mp h
  rw [show exPatientZero.temperature = some (99.55 : ℚ) from rfl] at ht
  rw [Option.some.injEq] at ht
  rw [← ht] at hle
  norm_num at hle

lemma feverCheck_exPatientData : feverCheck exPatientData = false := by
  simp only [Bool.eq_false_iff]
  intro h
  obtain ⟨t, ht, hle⟩ := (feverCheck_iff _).mp h
  rw [show exPatientData.temperature = some (98.0 : ℚ) from rfl] at ht
  rw [Option.some.injEq] at ht
  rw [← ht] at hle
  norm_num at hle

lemma feverCheck_exPatientAll : feverCheck exPatientAll = true := by
  rw [feverCheck_iff]
  exact ⟨101.2, rfl, by norm_num⟩

/-- `buildAlertLists` on a single-patient list, by criterion. -/
lemma buildAlertLists_singleton (p : Patient) :
    buildAlertLists [some p] =
      { high_risk_patients := if highRiskCheck p then [p.patient_id] else [],
        fever_patients := if feverCheck p then [p.patient_id] else [],
        data_quality_issues := if dataIssueCheck p then [p.patient_id] else [] } := by
  rw [buildAlertLists_char]
  simp only [List.reduceOption_cons_of_some, List.reduceOption_nil, List.filter_cons,
    List.filter_nil]
  split_ifs <;> simp

/-- C4: For every non-null patient in the input, the classifier puts its
id in `high_risk_patients` iff the combined total is ≥ 4, in
`fever_patients` iff the raw temperature is present and ≥ 99.6
(independent of the banded temperature score), and in
`data_quality_issues` iff `dataIssue` holds; the example patient with BP
"145/95", temperature 101.2, age 70 scores 4/2/2 with total 8 and lands
in the first two lists but not the third. -/
theorem alert_membership_criteria :
    (∀ (ps : List (Option Patient)) (pid : String),
      (pid ∈ (buildAlertLists ps).high_risk_patients ↔
        ∃ p : Patient, some p ∈ ps ∧ p.patient_id = pid ∧
          4 ≤ (calculateRisk (some p)).total) ∧
      (pid ∈ (buildAlertLists ps).fever_patients ↔
        ∃ (p : Patient) (t : ℚ), some p ∈ ps ∧ p.patient_id = pid ∧
          p.temperature = some t ∧ 99.6 ≤ t) ∧
      (pid ∈ (buildAlertLists ps).data_quality_issues ↔
        ∃ p : Patient, some p ∈ ps ∧ p.patient_id = pid ∧
          (calculateRisk (some p)).dataIssue = true)) ∧
    calculateRisk (some exPatientHF) =
      { total := 8, bpScore := 4, tempScore := 2, ageScore := 2, dataIssue := false } ∧
    buildAlertLists [some exPatientHF] =
      { high_risk_patients := ["HF-1"], fever_patients := ["HF-1"],
        data_quality_issues := [] } := by
  refine ⟨?_, calculateRisk_exPatientHF, ?_⟩
  · intro ps pid
    rw [buildAlertLists_char]
    refine ⟨?_, ?_, ?_⟩
    · simp only [List.mem_map, List.mem_filter, List.reduceOption_mem_iff,
        highRiskCheck, decide_eq_true_eq]
      constructor
      · rintro ⟨p, ⟨hm, hc⟩, hp⟩
        exact ⟨p, hm, hp, hc⟩
      · rintro ⟨p, hm, hp, hc⟩
        exact ⟨p, ⟨hm, hc⟩, hp⟩
    · simp only [List.mem_map, List.mem_filter, List.reduceOption_mem_iff]
      constructor
      · rintro ⟨p, ⟨hm, hc⟩, hp⟩
        obtain ⟨t, ht, hle⟩ := (feverCheck_iff p).mp hc
        exact ⟨p, t, hm, hp, ht, hle⟩
      · rintro ⟨p, t, hm, hp, ht, hle⟩
        exact ⟨p, ⟨hm, (feverCheck_iff p).mpr ⟨t, ht, hle⟩⟩, hp⟩
    · simp only [List.mem_map, List.mem_filter, List.reduceOption_mem_iff, dataIssueCheck]
      constructor
      · rintro ⟨p, ⟨hm, hc⟩, hp⟩
        exact ⟨p, hm, hp, hc⟩
      · rintro ⟨p, hm, hp, hc⟩
        exact ⟨p, ⟨hm, hc⟩, hp⟩
  · rw [buildAlertLists_singleton, highRiskCheck_exPatientHF, feverCheck_exPatientHF,
      dataIssueCheck_exPatientHF]
    rfl

/-- C9: The classifier is a single pass over the patient sequence: each
alert list is the encounter-ordered, duplicate-preserving image of the
non-null patients satisfying its criterion (a patient appearing twice
in the source appears twice in the output, null entries are skipped),
and the three criteria are evaluated independently: concrete patients
land in zero, one, two, and all three lists. -/
theorem buildAlertLists_single_pass :
    (∀ ps : List (Option Patient),
      buildAlertLists ps =
        { high_risk_patients := (ps.reduceOption.filter highRiskCheck).map Patient.patient_id,
          fever_patients := (ps.reduceOption.filter feverCheck).map Patient.patient_id,
          data_quality_issues :=
            (ps.reduceOption.filter dataIssueCheck).map Patient.patient_id }) ∧
    buildAlertLists [some exPatientZero] =
      { high_risk_patients := [], fever_patients := [], data_quality_issues := [] } ∧
    buildAlertLists [some exPatientData] =
      { high_risk_patients := [], fever_patients := [], data_quality_issues := ["D-1"] } ∧
    buildAlertLists [some exPatientHF] =
      { high_risk_patients := ["HF-1"], fever_patients := ["HF-1"],
        data_quality_issues := [] } ∧
    buildAlertLists [some exPatientAll] =
      { high_risk_patients := ["A-1"], fever_patients := ["A-1"],
        data_quality_issues := ["A-1"] } ∧
    buildAlertLists [some exPatientHF, none, some exPatientHF] =
      { high_risk_patients := ["HF-1", "HF-1"], fever_patients := ["HF-1", "HF-1"],
        data_quality_issues := [] } := by
  refine ⟨buildAlertLists_char, ?_, ?_, ?_, ?_, ?_⟩
  · rw [buildAlertLists_singleton, highRiskCheck_exPatientZero, feverCheck_exPatientZero,
      dataIssueCheck_exPatientZero]
    rfl
  · rw [buildAlertLists_singleton, highRiskCheck_exPatientData, feverCheck_exPatientData,
      dataIssueCheck_exPatientData]
    rfl
  · rw [buildAlertLists_singleton, highRiskCheck_exPatientHF, feverCheck_exPatientHF,
      dataIssueCheck_exPatientHF]
    rfl
  · rw [buildAlertLists_singleton, highRiskCheck_exPatientAll, feverCheck_exPatientAll,
      dataIssueCheck_exPatientAll]
    rfl
  · rw [buildAlertLists_char]
    simp only [List.reduceOption_cons_of_some, List.reduceOption_cons_of_none,
      List.reduceOption_nil, List.filter_cons, List.filter_nil,
      highRiskCheck_exPatientHF, feverCheck_exPatientHF, dataIssueCheck_exPatientHF]
    rfl

/-!
## Lemmas about the fetcher
-/

/-- The backoff waits are linear in the attempt number. -/
lemma backoffWaits_map (a n : ℕ) :
    backoffWaits a n = (List.range n).map (fun i => 3000 * (a + i + 1)) := by
  induction n generalizing a with
  | zero => rfl
  | succ n ih =>
    rw [backoffWaits, ih, List.range_succ_eq_map, List.map_cons, List.map_map]
    simp only [List.cons.injEq]
    refine ⟨by norm_num, ?_⟩
    apply List.map_congr_left
    intro i _
    simp only [Function.comp_apply]
    omega

/-- Every response the spec calls retryable fails the success test. -/
lemma isRetryable_not_isSuccess (r : Response) (h : isRetryable r = true) :
    isSuccess r = false := by
  cases r with
  | netErr => rfl
  | http status body =>
    cases body with
    | none => rfl
    | some b =>
      simp only [isRetryable, Option.isNone_some, Bool.and_false, Bool.or_false,
        Bool.or_eq_true, beq_iff_eq] at h
      simp only [isSuccess, Bool.and_eq_false_iff, decide_eq_false_iff_not]
      omega

/-- A non-success response makes the loop increment `attempts`, wait
`3000 * attempts`, and continue on the remaining responses. -/
lemma fetchPageAux_retry (fuel attempts : ℕ) (r : Response) (rest : List Response)
    (h : isSuccess r = false) :
    fetchPageAux (fuel + 1) attempts (r :: rest) =
      ((fetchPageAux fuel (attempts + 1) rest).1,
       (fetchPageAux fuel (attempts + 1) rest).2.1,
       3000 * (attempts + 1) :: (fetchPageAux fuel (attempts + 1) rest).2.2) := by
  cases r with
  | netErr => rfl
  | http status body =>
    cases body with
    | none =>
      simp only [fetchPageAux]
      split_ifs <;> rfl
    | some b =>
      have hns : ¬ (200 ≤ status ∧ status ≤ 299) := by
        intro hc
        have ht : isSuccess (Response.http status (some b)) = true := by
          simp only [isSuccess, Bool.and_eq_true, decide_eq_true_eq]
          exact hc
        rw [h] at ht
        cases ht
      simp only [fetchPageAux]
      split_ifs <;> rfl

/-- A 2xx response with a parseable body exits the loop at once. -/
lemma fetchPageAux_success (fuel attempts s : ℕ) (b : PageBody) (rest : List Response)
    (h1 : 200 ≤ s) (h2 : s ≤ 299) :
    fetchPageAux (fuel + 1) attempts (Response.http s (some b) :: rest) =
      (PageOutcome.success b, rest, []) := by
  simp only [fetchPageAux]
  split_ifs with ha hb hc
  · omega
  · omega
  · rfl
  · exact absurd ⟨h1, h2⟩ hc

/-- Running the loop through a prefix of failures: the attempts count
advances by the prefix length and the backoff waits accumulate. -/
lemma fetchPageAux_skip (pre : List Response) :
    ∀ (fuel attempts : ℕ) (rest : List Response),
      (∀ r ∈ pre, isSuccess r = false) →
      fetchPageAux (pre.length + fuel) attempts (pre ++ rest) =
        ((fetchPageAux fuel (attempts + pre.length) rest).1,
         (fetchPageAux fuel (attempts + pre.length) rest).2.1,
         backoffWaits attempts pre.length ++
           (fetchPageAux fuel (attempts + pre.length) rest).2.2) := by
  induction pre with
  | nil =>
    intro fuel attempts rest h
    simp [backoffWaits]
  | cons r pre ih =>
    intro fuel attempts rest h
    have hr : isSuccess r = false := h r (List.mem_cons_self r pre)
    have hpre : ∀ x ∈ pre, isSuccess x = false := fun x hx => h x (List.mem_cons_of_mem r hx)
    have hlen : (r :: pre).length + fuel = (pre.length + fuel) + 1 := by
      simp [List.length_cons]
      omega
    rw [List.cons_append, hlen, fetchPageAux_retry (pre.length + fuel) attempts r _ hr,
      ih fuel (attempts + 1) rest hpre]
    have ha : attempts + 1 + pre.length = attempts + (pre.length + 1) := by omega
    rw [ha]
    simp [backoffWaits, List.length_cons]

/-- C6: On a 429, 500, 502, or 503 response or any network/parse
exception, the same page is retried (up to 10 attempts total) with a
wait of `3000 * attemptNumber` ms before each retry; three consecutive
429s followed by a success make exactly four requests (all four
responses consumed) with waits 3000, 6000, 9000 ms before the fourth
succeeds. -/
theorem retry_policy_linear_backoff :
    (∀ (pre rest : List Response) (s : ℕ) (b : PageBody),
      (∀ r ∈ pre, isRetryable r = true) → pre.length < 10 → 200 ≤ s → s ≤ 299 →
      fetchPage (pre ++ Response.http s (some b) :: rest) =
        (PageOutcome.success b, rest,
          (List.range pre.length).map (fun i => 3000 * (i + 1)))) ∧
    fetchPage [Response.http 429 none, Response.http 429 none, Response.http 429 none,
        Response.http 200 (some { data := [], totalPages := 1 })] =
      (PageOutcome.success { data := [], totalPages := 1 }, [], [3000, 6000, 9000]) := by
  constructor
  · intro pre rest s b hpre hlen h1 h2
    have hfail : ∀ r ∈ pre, isSuccess r = false :=
      fun r hr => isRetryable_not_isSuccess r (hpre r hr)
    have hfuel : (10 : ℕ) = pre.length + (9 - pre.length + 1) := by omega
    rw [fetchPage, hfuel, fetchPageAux_skip pre (9 - pre.length + 1) 0 _ hfail,
      fetchPageAux_success (9 - pre.length) (0 + pre.length) s b rest h1 h2]
    rw [backoffWaits_map]
    simp
  · decide

/-- Witness for C6: the general retry statement applied to three
concrete 429 responses followed by a 200. -/
theorem retry_policy_linear_backoff_witness :
    fetchPage ([Response.http 429 none, Response.http 429 none, Response.http 429 none] ++
        Response.http 200 (some { data := [], totalPages := 1 }) :: []) =
      (PageOutcome.success { data := [], totalPages := 1 }, [],
        (List.range 3).map (fun i => 3000 * (i + 1))) :=
  retry_policy_linear_backoff.1
    [Response.http 429 none, Response.http 429 none, Response.http 429 none] []
    200 { data := [], totalPages := 1 } (by decide) (by decide) (by decide) (by decide)

/-- C5: After 10 consecutive failed attempts on one page, the per-page
loop terminates with a silent give-up (no error value exists on this
path: every throw is caught inside the loop), the patients accumulated
so far are kept unchanged, and the outer loop proceeds to the next
page. -/
theorem retry_exhaustion_gives_up_silently :
    ∀ (pre rest : List Response) (patients : List (Option Patient))
      (page totalPages fuel : ℕ),
      pre.length = 10 → (∀ r ∈ pre, isSuccess r = false) → page ≤ totalPages →
      fetchPage (pre ++ rest) = (PageOutcome.gaveUp, rest, backoffWaits 0 10) ∧
      fetchPagesAux (fuel + 1) (pre ++ rest) patients page totalPages =
        fetchPagesAux fuel rest patients (page + 1) totalPages := by
  intro pre rest patients page totalPages fuel hlen hfail hpage
  have h0 : fetchPage (pre ++ rest) = (PageOutcome.gaveUp, rest, backoffWaits 0 10) := by
    have h10 : (10 : ℕ) = pre.length + 0 := by omega
    rw [fetchPage, h10, fetchPageAux_skip pre 0 0 rest hfail, hlen]
    simp [fetchPageAux]
  refine ⟨h0, ?_⟩
  rw [fetchPagesAux, if_pos hpage, h0]

/-- Witness for C5: ten concrete network errors on page 1 of 1. -/
theorem retry_exhaustion_gives_up_silently_witness :
    fetchPage (List.replicate 10 Response.netErr ++ []) =
      (PageOutcome.gaveUp, [], backoffWaits 0 10) ∧
    fetchPagesAux 1 (List.replicate 10 Response.netErr ++ []) [] 1 1 =
      fetchPagesAux 0 [] [] 2 1 :=
  retry_exhaustion_gives_up_silently (List.replicate 10 Response.netErr) [] [] 1 1 0
    (by decide) (by decide) (by decide)
